import Mathlib

/-!
Verification of the behavioral scoring core of the C2 beacon detector.

The definitions below are a shallow embedding of the JavaScript
modules of the repository.  JavaScript numbers are modelled by rationals (ℚ)
except where a square root or logarithm forces the reals; accumulated
scores are integers (ℤ).  Human-readable strings (reasons, technical
details, recommendations) carried along by the original code do not
influence any number and are elided from the embedding.
-/

namespace C2Detector

/-- A threat-intelligence match as consumed by the detection engine
(`Detector.detect` in the repository).  Only the confidence level takes
part in scoring; the descriptive fields are elided. -/
structure TIMatch where
  confidence_level : ℚ
deriving DecidableEq

/-- The behavioral feature vector consumed by `Detector.detect`
(field names follow the `features` object of the source). -/
structure Features where
  mean_interval : ℚ
  cv_interval : ℚ
  jitter : ℚ
  periodicity : ℚ
  bytes_consistency : ℚ
  duration_minutes : ℚ
  connection_count : ℕ
  unique_dest_ips : ℕ
  unique_dest_ports : ℕ
  port_entropy : ℚ
  entropy : ℚ
  night_ratio : ℚ
  time_diversity : ℚ
deriving DecidableEq

namespace Detector

/-- Computes `Math.max(...tiMatches.map(m => m.confidence_level))`; the source only
evaluates it on a non-empty list of matches. -/
def highestConfidence : List TIMatch → ℚ
  | [] => 0
  | m :: rest => rest.foldl (fun acc x => max acc x.confidence_level) m.confidence_level

/-- Threat-intelligence block of `detect`: `score += 45` for any match,
then `+25` when the highest confidence is at least 75, else `+15`. -/
def stepThreatIntel (tiMatches : List TIMatch) (score : ℤ) : ℤ :=
  if tiMatches ≠ [] then
    score + 45 + (if 75 ≤ highestConfidence tiMatches then 25 else 15)
  else score

/-- Periodicity block of `detect`. -/
def stepPeriodicity (f : Features) (score : ℤ) : ℤ :=
  if 0.80 < f.periodicity then score + 35
  else if 0.70 < f.periodicity then score + 25
  else if 0.60 < f.periodicity then score + 15
  else score

/-- Jitter block of `detect`. -/
def stepJitter (f : Features) (score : ℤ) : ℤ :=
  if f.jitter < 0.08 then score + 30
  else if f.jitter < 0.15 then score + 20
  else if f.jitter < 0.25 then score + 10
  else score

/-- Payload-consistency block of `detect`. -/
def stepPayload (f : Features) (score : ℤ) : ℤ :=
  if 0.90 < f.bytes_consistency then score + 20
  else if 0.80 < f.bytes_consistency then score + 15
  else score

/-- Interval-range block of `detect` (common C2 range 30–300 s). -/
def stepIntervalRange (f : Features) (score : ℤ) : ℤ :=
  if 30 ≤ f.mean_interval ∧ f.mean_interval ≤ 300 then score + 15 else score

/-- Cobalt Strike signature block of `detect` (58–62 s and jitter below 0.10). -/
def stepCobalt (f : Features) (score : ℤ) : ℤ :=
  if 58 ≤ f.mean_interval ∧ f.mean_interval ≤ 62 ∧ f.jitter < 0.10 then score + 20
  else score

/-- Metasploit signature block of `detect` (115–125 s and jitter below 0.12). -/
def stepMetasploit (f : Features) (score : ℤ) : ℤ :=
  if 115 ≤ f.mean_interval ∧ f.mean_interval ≤ 125 ∧ f.jitter < 0.12 then score + 18
  else score

/-- Duration/persistence block of `detect`. -/
def stepPersistence (f : Features) (score : ℤ) : ℤ :=
  if 120 < f.duration_minutes ∧ 50 < f.connection_count then score + 15
  else if 60 < f.duration_minutes ∧ 30 < f.connection_count then score + 12
  else score

/-- Single-destination block of `detect`. -/
def stepSingleDest (f : Features) (score : ℤ) : ℤ :=
  if f.unique_dest_ips = 1 ∧ 20 < f.connection_count then score + 12 else score

/-- Low-port-diversity block of `detect`. -/
def stepPortPatterns (f : Features) (score : ℤ) : ℤ :=
  if f.port_entropy < 0.5 ∧ f.unique_dest_ports = 1 then score + 10 else score

/-- Low-entropy block of `detect`. -/
def stepEntropy (f : Features) (score : ℤ) : ℤ :=
  if f.entropy < 1.5 ∧ 20 < f.connection_count then score + 12 else score

/-- Night-activity block of `detect`. -/
def stepNight (f : Features) (score : ℤ) : ℤ :=
  if 0.7 < f.night_ratio ∧ 30 < f.connection_count then score + 8 else score

/-- First benign-indicator block of `detect`: note that in the source the
high-variance deduction is the `else if` branch of the short-interval
deduction, so the two never fire together. -/
def stepBenignIntervalVariance (f : Features) (score : ℤ) : ℤ :=
  if f.mean_interval < 3 then score - 25
  else if 0.70 < f.cv_interval then score - 20
  else score

/-- Many-destinations benign block of `detect`. -/
def stepManyDest (f : Features) (score : ℤ) : ℤ :=
  if 10 < f.unique_dest_ips then score - 15 else score

/-- Time-diversity benign block of `detect`. -/
def stepTimeDiversity (f : Features) (score : ℤ) : ℤ :=
  if 0.7 < f.time_diversity then score - 10 else score

/-- Computes `Math.max(0, Math.min(100, score))`, the final clamp of `detect`. -/
def clamp (s : ℤ) : ℤ := max 0 (min 100 s)

/-- The function `Detector.detect`: the sequential accumulator of the source, threading
the mutable `score` through the factor blocks in source order, clamped
once at the very end. -/
def detect (f : Features) (tiMatches : List TIMatch) : ℤ :=
  clamp (stepTimeDiversity f (stepManyDest f (stepBenignIntervalVariance f
    (stepNight f (stepEntropy f (stepPortPatterns f (stepSingleDest f
    (stepPersistence f (stepMetasploit f (stepCobalt f (stepIntervalRange f
    (stepPayload f (stepJitter f (stepPeriodicity f
    (stepThreatIntel tiMatches 0)))))))))))))))

/-- Per-factor point delta of the threat-intelligence block. -/
def tiDelta (tiMatches : List TIMatch) : ℤ :=
  if tiMatches ≠ [] then 45 + (if 75 ≤ highestConfidence tiMatches then 25 else 15)
  else 0

/-- Per-factor point delta of the periodicity block. -/
def periodicityDelta (f : Features) : ℤ :=
  if 0.80 < f.periodicity then 35
  else if 0.70 < f.periodicity then 25
  else if 0.60 < f.periodicity then 15
  else 0

/-- Per-factor point delta of the jitter block. -/
def jitterDelta (f : Features) : ℤ :=
  if f.jitter < 0.08 then 30
  else if f.jitter < 0.15 then 20
  else if f.jitter < 0.25 then 10
  else 0

/-- Per-factor point delta of the payload-consistency block. -/
def payloadDelta (f : Features) : ℤ :=
  if 0.90 < f.bytes_consistency then 20
  else if 0.80 < f.bytes_consistency then 15
  else 0

/-- Per-factor point delta of the interval-range block. -/
def intervalRangeDelta (f : Features) : ℤ :=
  if 30 ≤ f.mean_interval ∧ f.mean_interval ≤ 300 then 15 else 0

/-- Per-factor point delta of the Cobalt Strike signature block. -/
def cobaltDelta (f : Features) : ℤ :=
  if 58 ≤ f.mean_interval ∧ f.mean_interval ≤ 62 ∧ f.jitter < 0.10 then 20 else 0

/-- Per-factor point delta of the Metasploit signature block. -/
def metasploitDelta (f : Features) : ℤ :=
  if 115 ≤ f.mean_interval ∧ f.mean_interval ≤ 125 ∧ f.jitter < 0.12 then 18 else 0

/-- Per-factor point delta of the persistence block. -/
def persistenceDelta (f : Features) : ℤ :=
  if 120 < f.duration_minutes ∧ 50 < f.connection_count then 15
  else if 60 < f.duration_minutes ∧ 30 < f.connection_count then 12
  else 0

/-- Per-factor point delta of the single-destination block. -/
def singleDestDelta (f : Features) : ℤ :=
  if f.unique_dest_ips = 1 ∧ 20 < f.connection_count then 12 else 0

/-- Per-factor point delta of the low-port-diversity block. -/
def portPatternsDelta (f : Features) : ℤ :=
  if f.port_entropy < 0.5 ∧ f.unique_dest_ports = 1 then 10 else 0

/-- Per-factor point delta of the low-entropy block. -/
def entropyDelta (f : Features) : ℤ :=
  if f.entropy < 1.5 ∧ 20 < f.connection_count then 12 else 0

/-- Per-factor point delta of the night-activity block. -/
def nightDelta (f : Features) : ℤ :=
  if 0.7 < f.night_ratio ∧ 30 < f.connection_count then 8 else 0

/-- Per-factor point delta of the first benign-indicator block (the
short-interval / high-variance `if`/`else if` pair). -/
def benignIntervalVarianceDelta (f : Features) : ℤ :=
  if f.mean_interval < 3 then -25
  else if 0.70 < f.cv_interval then -20
  else 0

/-- Per-factor point delta of the many-destinations benign block. -/
def manyDestDelta (f : Features) : ℤ :=
  if 10 < f.unique_dest_ips then -15 else 0

/-- Per-factor point delta of the time-diversity benign block. -/
def timeDiversityDelta (f : Features) : ℤ :=
  if 0.7 < f.time_diversity then -10 else 0

/-- Sum of the per-factor deltas that depend only on the feature vector. -/
def featureDelta (f : Features) : ℤ :=
  periodicityDelta f + jitterDelta f + payloadDelta f + intervalRangeDelta f +
  cobaltDelta f + metasploitDelta f + persistenceDelta f + singleDestDelta f +
  portPatternsDelta f + entropyDelta f + nightDelta f +
  benignIntervalVarianceDelta f + manyDestDelta f + timeDiversityDelta f

/-- Sum of all triggered per-factor deltas of one detection run. -/
def totalDelta (f : Features) (tiMatches : List TIMatch) : ℤ :=
  tiDelta tiMatches + featureDelta f

/-- A feature vector with mean interval 1 s, coefficient of variation 0.8
and every suspicious factor quiet; used as a concrete evaluation point. -/
def exampleFeatures : Features where
  mean_interval := 1
  cv_interval := 0.8
  jitter := 0.8
  periodicity := 0
  bytes_consistency := 0
  duration_minutes := 0
  connection_count := 2
  unique_dest_ips := 1
  unique_dest_ports := 2
  port_entropy := 1
  entropy := 2
  night_ratio := 0
  time_diversity := 0

/-- One threat-intelligence match with confidence level 80. -/
def exampleMatch : TIMatch := ⟨80⟩

end Detector

/-- A raw connection record.  Every accepted field alias is an optional
field; a JavaScript `undefined` is `none`.  `NaN` values are not modelled. -/
structure Conn where
  timestamp : Option ℚ := none
  time : Option ℚ := none
  ts : Option ℚ := none
  epoch : Option ℚ := none
  bytes : Option ℚ := none
  size : Option ℚ := none
  len : Option ℚ := none
  dest_ip : Option String := none
  dst : Option String := none
  destination : Option String := none
  dst_ip : Option String := none
  src_ip : Option String := none
  src : Option String := none
  src_alias : Option String := none
  dest_port : Option ℚ := none
  dport : Option ℚ := none
  src_port : Option ℚ := none
  sport : Option ℚ := none

namespace Utils

/-- A JavaScript `||` chain over numeric fields: the first present,
non-zero value wins; a chain ending in only absent/zero values is `none`
(the source treats that as falsy). -/
def firstTruthyQ : List (Option ℚ) → Option ℚ
  | [] => none
  | none :: rest => firstTruthyQ rest
  | some v :: rest => if v = 0 then firstTruthyQ rest else some v

/-- A JavaScript `||` chain over string fields: the first present,
non-empty string wins. -/
def firstTruthyS : List (Option String) → Option String
  | [] => none
  | none :: rest => firstTruthyS rest
  | some v :: rest => if v = "" then firstTruthyS rest else some v

/-- The timestamp alias chain `conn.timestamp || conn.time || conn.ts ||
conn.epoch` of `Utils.getTimestamp`. -/
def resolvedTimestamp (c : Conn) : Option ℚ :=
  firstTruthyQ [c.timestamp, c.time, c.ts, c.epoch]

/-- The function `Utils.getTimestamp`: resolve the timestamp aliases, fail (`none`,
modelling the thrown error) when no truthy value is found, and scale a
value below 10,000,000,000 from seconds to milliseconds. -/
def getTimestamp (c : Conn) : Option ℚ :=
  match resolvedTimestamp c with
  | none => none
  | some t => some (if t < 10000000000 then t * 1000 else t)

/-- The function `Utils.getBytes`: `conn.bytes || conn.size || conn.length || 0`. -/
def getBytes (c : Conn) : ℚ :=
  (firstTruthyQ [c.bytes, c.size, c.len]).getD 0

/-- The function `Utils.getDestIP`: alias chain defaulting to the string `unknown`. -/
def getDestIP (c : Conn) : String :=
  (firstTruthyS [c.dest_ip, c.dst, c.destination, c.dst_ip]).getD "unknown"

/-- The function `Utils.getDestPort`: `conn.dest_port || conn.dport || 0`. -/
def getDestPort (c : Conn) : ℚ :=
  (firstTruthyQ [c.dest_port, c.dport]).getD 0

/-- The function `Utils.getSrcPort`: `conn.src_port || conn.sport || 0`. -/
def getSrcPort (c : Conn) : ℚ :=
  (firstTruthyQ [c.src_port, c.sport]).getD 0

/-- Result record of `Utils.calculateStats`.  The intermediate variance is
kept as a field so the square root (`std`) can be spoken about; the source
computes it inline. -/
structure Stats where
  mean : ℚ
  median : ℚ
  variance : ℚ
  std : ℝ
  minv : ℚ
  maxv : ℚ

/-- The function `Utils.calculateStats`: mean, median (upper middle element of the
sorted list), population standard deviation, min and max; all zero on an
empty list. -/
noncomputable def calculateStats (values : List ℚ) : Stats :=
  if values = [] then ⟨0, 0, 0, 0, 0, 0⟩
  else
    let sorted := values.mergeSort
    let mean := values.sum / (values.length : ℚ)
    let variance := (values.map (fun b => (b - mean) ^ 2)).sum / (values.length : ℚ)
    { mean := mean
      median := sorted.getD (sorted.length / 2) 0
      variance := variance
      std := Real.sqrt (variance : ℝ)
      minv := sorted.getD 0 0
      maxv := sorted.getD (sorted.length - 1) 0 }

end Utils

namespace Analyzer

/-- Consecutive differences of a timestamp list
(`timestamps.slice(1).map((t, i) => t - timestamps[i])`). -/
def diffs : List ℚ → List ℚ
  | a :: b :: rest => (b - a) :: diffs (b :: rest)
  | _ => []

/-- The interval series of an analysis: consecutive differences of the
ascending-sorted resolved timestamps. -/
def intervalsOf (rawTs : List ℚ) : List ℚ :=
  diffs rawTs.mergeSort

/-- The function `Analyzer.calculatePeriodicity`: the fraction of intervals whose
relative deviation from the median is strictly below the 0.15 tolerance;
zero when there are no intervals or the median is zero. -/
def calculatePeriodicity (intervals : List ℚ) (median : ℚ) : ℚ :=
  if intervals = [] ∨ median = 0 then 0
  else ((intervals.filter (fun i => |i - median| / median < 0.15)).length : ℚ)
    / (intervals.length : ℚ)

/-- Empirical probability of one value in a list. -/
def probOf {α : Type} [DecidableEq α] (vals : List α) (v : α) : ℚ :=
  (vals.count v : ℚ) / (vals.length : ℚ)

/-- Shannon entropy (base 2) of the empirical distribution of a list, the
`−Σ p·log2(p)` loop over the distinct values of the count table of the source. -/
noncomputable def entropyOfValues {α : Type} [DecidableEq α] (vals : List α) : ℝ :=
  (vals.dedup.map (fun v => -(probOf vals v : ℝ) * Real.logb 2 (probOf vals v))).sum

/-- The function `Analyzer.calculateEntropy`: entropy of the intervals bucketed into
1-second (1000 ms) buckets. -/
noncomputable def calculateEntropy (intervals : List ℚ) : ℝ :=
  if intervals = [] then 0
  else entropyOfValues (intervals.map (fun i => ⌊i / 1000⌋))

/-- The function `Analyzer.calculatePortEntropy`: entropy of the positive destination
ports. -/
noncomputable def calculatePortEntropy (conns : List Conn) : ℝ :=
  let ports := (conns.map Utils.getDestPort).filter (fun p => 0 < p)
  if ports = [] then 0 else entropyOfValues ports

/-- Hour of day of a millisecond timestamp.  The source uses the
environment local-time `getHours()`; the embedding uses the UTC hour —
only the 0–23 range of the result matters for the stated properties. -/
def hourOfTimestamp (t : ℚ) : ℤ :=
  ⌊t / 3600000⌋ % 24

/-- Result of `Analyzer.analyzeTimePatterns`. -/
structure TimePatterns where
  diversity : ℚ
  nightRatio : ℚ

/-- The function `Analyzer.analyzeTimePatterns`: distinct hours touched over 24, and the
fraction of connections in the 22:00–06:00 window. -/
def analyzeTimePatterns (timestamps : List ℚ) : TimePatterns :=
  let hours := timestamps.map hourOfTimestamp
  { diversity := (hours.dedup.length : ℚ) / 24
    nightRatio := ((hours.filter (fun h => 22 ≤ h ∨ h < 6)).length : ℚ)
      / (timestamps.length : ℚ) }

/-- The feature vector produced by `Analyzer.extractFeatures` (snake-case
field names as in the source; `regularity_score` and the per-minute rate
are included for completeness). -/
structure AFeatures where
  mean_interval : ℚ
  median_interval : ℚ
  std_interval : ℝ
  min_interval : ℚ
  max_interval : ℚ
  cv_interval : ℝ
  jitter : ℝ
  periodicity : ℚ
  entropy : ℝ
  regularity_score : ℝ
  avg_bytes : ℚ
  median_bytes : ℚ
  min_bytes : ℚ
  max_bytes : ℚ
  bytes_cv : ℝ
  bytes_consistency : ℝ
  total_bytes : ℚ
  connection_count : ℕ
  duration_minutes : ℚ
  unique_dest_ips : ℕ
  unique_dest_ports : ℕ
  unique_src_ports : ℕ
  connections_per_minute : ℚ
  port_entropy : ℝ
  time_diversity : ℚ
  night_ratio : ℚ

/-- Body of `Analyzer.extractFeatures` once every timestamp has resolved:
sort the timestamps, derive the interval series and all feature groups. -/
noncomputable def extractFeaturesWith (conns : List Conn) (rawTs : List ℚ) : AFeatures :=
  let timestamps := rawTs.mergeSort
  let intervals := diffs timestamps
  let timingStats := Utils.calculateStats intervals
  let cv : ℝ := if 0 < timingStats.mean then timingStats.std / (timingStats.mean : ℝ) else 0
  let byteSizes := (conns.map Utils.getBytes).filter (fun b => 0 < b)
  let byteStats := Utils.calculateStats byteSizes
  let bytesCV : ℝ :=
    if byteSizes ≠ [] ∧ 0 < byteStats.mean then byteStats.std / (byteStats.mean : ℝ) else 1
  let destIPs := (conns.map Utils.getDestIP).dedup
  let destPorts := ((conns.map Utils.getDestPort).filter (fun p => 0 < p)).dedup
  let srcPorts := ((conns.map Utils.getSrcPort).filter (fun p => 0 < p)).dedup
  let durationMs := timestamps.getD (timestamps.length - 1) 0 - timestamps.getD 0 0
  let timePatterns := analyzeTimePatterns timestamps
  { mean_interval := timingStats.mean / 1000
    median_interval := timingStats.median / 1000
    std_interval := timingStats.std / 1000
    min_interval := timingStats.minv / 1000
    max_interval := timingStats.maxv / 1000
    cv_interval := cv
    jitter := cv
    periodicity := calculatePeriodicity intervals timingStats.median
    entropy := calculateEntropy intervals
    regularity_score := if 0 < cv then 1 / (1 + cv) else 0
    avg_bytes := byteStats.mean
    median_bytes := byteStats.median
    min_bytes := byteStats.minv
    max_bytes := byteStats.maxv
    bytes_cv := bytesCV
    bytes_consistency := 1 - min bytesCV 1
    total_bytes := byteSizes.sum
    connection_count := conns.length
    duration_minutes := durationMs / 1000 / 60
    unique_dest_ips := destIPs.length
    unique_dest_ports := destPorts.length
    unique_src_ports := srcPorts.length
    connections_per_minute := (conns.length : ℚ) / max (durationMs / 1000 / 60) 1
    port_entropy := calculatePortEntropy conns
    time_diversity := timePatterns.diversity
    night_ratio := timePatterns.nightRatio }

/-- Resolution of every timestamp of the list, failing (like the thrown
error of the map step of the source) as soon as one record has no truthy alias. -/
def mapTimestamps : List Conn → Option (List ℚ)
  | [] => some []
  | c :: rest =>
    match Utils.getTimestamp c, mapTimestamps rest with
    | some t, some restTs => some (t :: restTs)
    | _, _ => none

/-- The function `Analyzer.extractFeatures`: resolve all timestamps, then build the
feature vector. -/
noncomputable def extractFeatures (conns : List Conn) : Option AFeatures :=
  (mapTimestamps conns).map (extractFeaturesWith conns)

end Analyzer

/-- Two connections, 1000 s and 3000 s epochs, destination ports 80 and
443, used as a concrete analysis input. -/
def exampleConns : List Conn :=
  [{ timestamp := some 1000, dest_port := some 80 },
   { timestamp := some 3000, dest_port := some 443 }]

/-- The resolved (seconds-scaled) timestamps of `exampleConns`. -/
def exampleRawTs : List ℚ := [1000000, 3000000]

/-- An IPv4 address once the source has split the string on dots and
parsed each part with Number: the
list of parsed octets.  A failed numeric parse (JavaScript `NaN`) is
`none`; a malformed string yields a list whose length is not 4.  The
`unknown` marker splits to a single part and is caught by the length
check. -/
abbrev IPParts := List (Option ℕ)

namespace Utils

/-- Octet equality test `parts[i] === n` (false on a missing or
unparsable octet, as `NaN` comparisons are in JavaScript). -/
def octEq (parts : IPParts) (i n : ℕ) : Bool :=
  decide (parts.getD i none = some n)

/-- Octet range test `parts[i] >= lo && parts[i] <= hi`. -/
def octBetween (parts : IPParts) (i lo hi : ℕ) : Bool :=
  match parts.getD i none with
  | some v => decide (lo ≤ v ∧ v ≤ hi)
  | none => false

/-- The function `Utils.isPrivateIP` of the module this namespace embeds: early
returns for a malformed address, 10/8, 172.16/12, 192.168/16 and the
127/8 loopback.  This variant has no link-local (169.254/16) check. -/
def isPrivateIP (parts : IPParts) : Bool :=
  parts.length ≠ 4 ||
  octEq parts 0 10 ||
  (octEq parts 0 172 && octBetween parts 1 16 31) ||
  (octEq parts 0 192 && octEq parts 1 168) ||
  octEq parts 0 127

end Utils

namespace UtilsB

/-- The function `Utils.isPrivateIP` of the variant-B utilities: the same ranges plus
the link-local 169.254/16 range. -/
def isPrivateIP (parts : IPParts) : Bool :=
  parts.length ≠ 4 ||
  Utils.octEq parts 0 10 ||
  (Utils.octEq parts 0 172 && Utils.octBetween parts 1 16 31) ||
  (Utils.octEq parts 0 192 && Utils.octEq parts 1 168) ||
  Utils.octEq parts 0 127 ||
  (Utils.octEq parts 0 169 && Utils.octEq parts 1 254)

end UtilsB

namespace ThreatIntel

/-- The deduplicated destination IPs of a dataset as collected by
`Utils.extractUniqueIPs`; `none` is the `unknown` marker, which is
skipped.  Each present destination is the parsed octet list. -/
def destIPsOf (conns : List (Option IPParts)) : List IPParts :=
  (conns.filterMap id).dedup

/-- The IPs for which `ThreatIntel.checkConnections` runs a lookup:
destination IPs that pass the `isPrivateIP` filter, capped at the
configured `maxIPs` limit of 20. -/
def externalLookupIPs (conns : List (Option IPParts)) : List IPParts :=
  ((destIPsOf conns).filter (fun ip => !Utils.isPrivateIP ip)).take 20

/-- The function `ThreatIntel.lookupIPMultiSource`, abstracted over the two external
capabilities (ThreatFox feed and custom-rule matcher): a private IP
returns `none` immediately, otherwise a result is produced exactly when
at least one source matched.  The combined-score arithmetic and the
attached metadata are not needed by the stated properties and are kept as
the raw pair of source results. -/
def lookupIPMultiSource {α β : Type} (feed : IPParts → Option α)
    (custom : IPParts → Option β) (ip : IPParts) :
    Option (IPParts × Option α × Option β) :=
  if Utils.isPrivateIP ip then none
  else
    match feed ip, custom ip with
    | none, none => none
    | fz, cz => some (ip, fz, cz)

/-- The function `ThreatIntel.checkConnections`: look up every capped non-private
destination IP and keep the results that matched at least one source
(the per-IP connection count attached by the source is elided). -/
def checkConnections {α β : Type} (feed : IPParts → Option α)
    (custom : IPParts → Option β) (conns : List (Option IPParts)) :
    List (IPParts × Option α × Option β) :=
  (externalLookupIPs conns).filterMap (lookupIPMultiSource feed custom)

end ThreatIntel

/-- The four address ranges that every `isPrivateIP` variant checks,
written from the words of the specification: 10.0.0.0/8, 172.16.0.0/12,
192.168.0.0/16 and 127.0.0.0/8 on a well-formed dotted quad. -/
def rfc1918OrLoopback (parts : IPParts) : Prop :=
  parts.length = 4 ∧
  (parts.getD 0 none = some 10 ∨
    (parts.getD 0 none = some 172 ∧
      ∃ v, parts.getD 1 none = some v ∧ 16 ≤ v ∧ v ≤ 31) ∨
    (parts.getD 0 none = some 192 ∧ parts.getD 1 none = some 168) ∨
    parts.getD 0 none = some 127)

/-- The five address ranges the claim calls private/reserved: the four
ranges above plus link-local 169.254.0.0/16. -/
def claimedPrivateRange (parts : IPParts) : Prop :=
  rfc1918OrLoopback parts ∨
  (parts.length = 4 ∧ parts.getD 0 none = some 169 ∧ parts.getD 1 none = some 254)

/-- A link-local address, 169.254.1.1. -/
def linkLocalIP : IPParts := [some 169, some 254, some 1, some 1]

/-- A dataset whose only destination IP is the link-local 169.254.1.1. -/
def linkLocalConns : List (Option IPParts) := [some linkLocalIP, some linkLocalIP]

namespace AnalyzerB

/-- A JavaScript `||` of two optional numeric fields, as used by the
variant-B normalizer (`conn.dest_port || conn.dport`): a present non-zero
left operand wins, otherwise the right operand (possibly absent or zero)
is returned. -/
def jsOrOpt (a b : Option ℚ) : Option ℚ :=
  match a with
  | some v => if v = 0 then b else some v
  | none => b

/-- Variant-B analyzer (`analyzeNetwork`): destination ports are the
resolved per-record `dest_port` values that are present (zeros included, the
source filters only `undefined`), and port diversity is
`uniqueDestPorts / Math.sqrt(destPorts.length)`, 0 when no port data. -/
noncomputable def portDiversity (conns : List Conn) : ℝ :=
  let destPorts := conns.filterMap (fun c => jsOrOpt c.dest_port c.dport)
  if 0 < destPorts.length then
    (destPorts.dedup.length : ℝ) / Real.sqrt (destPorts.length : ℝ)
  else 0

end AnalyzerB

namespace MLDetector

/-- The variant-B ML configuration (`MLDetector.config`). -/
structure MLConfig where
  enabled : Bool
  confidenceThreshold : ℚ
  useEnsemble : Bool

/-- The shipped default configuration: enabled, threshold 0.65,
ensemble on. -/
def defaultConfig : MLConfig := ⟨true, 0.65, true⟩

/-- The two prediction labels of the ensemble. -/
inductive Prediction
  | malicious
  | benign
deriving DecidableEq

/-- The variant-B feature vector fields consumed by the ML models
(camelCase names as in the source). -/
structure BFeatures where
  periodicity : ℚ
  jitter : ℚ
  payloadConsistency : ℚ
  uniqueDestinations : ℕ
  portDiversity : ℚ
  durationHours : ℚ
  meanInterval : ℚ
  connectionCount : ℕ
  timingEntropy : ℚ

/-- The beacon classifier (`createBeaconClassifier().predict`): fixed
point contributions summed and clamped to [0,1]. -/
def beaconScore (f : BFeatures) : ℚ :=
  let s : ℚ :=
    (if 0.8 < f.periodicity then 0.35 else if 0.7 < f.periodicity then 0.25 else 0) +
    (if f.jitter < 0.1 then 0.30 else if f.jitter < 0.2 then 0.20 else 0) +
    (if 0.9 < f.payloadConsistency then 0.20
      else if 0.8 < f.payloadConsistency then 0.15 else 0) +
    (if f.uniqueDestinations = 1 then 0.15 else 0) +
    (if f.portDiversity < 0.1 then 0.10 else 0) +
    (if 2 < f.durationHours then 0.10 else 0)
  min 1 s

/-- The anomaly detector (`createAnomalyDetector().detect`): accumulated
anomaly-factor weights clamped to [0,1]. -/
def anomalyScore (f : BFeatures) : ℚ :=
  let s : ℚ :=
    (if 0.85 < f.periodicity ∧ f.jitter < 0.15 then 0.3 else 0) +
    (if 50000 < f.meanInterval ∧ f.meanInterval < 150000 ∧
        (|f.meanInterval - 60000| < 5000 ∨ |f.meanInterval - 120000| < 10000)
      then 0.35 else 0) +
    (if 0.9 < f.payloadConsistency then 0.20 else 0) +
    (if f.uniqueDestinations = 1 ∧ 20 < f.connectionCount then 0.15 else 0) +
    (if f.timingEntropy < 2 then 0.15 else 0) +
    (if 3 < f.durationHours then 0.10 else 0)
  min 1 s

/-- The result of `MLDetector.combineResults`. -/
structure EnsembleResult where
  prediction : Prediction
  score : ℚ
deriving DecidableEq

/-- The function `MLDetector.combineResults`: beacon weight 0.6, anomaly weight 0.4,
prediction `malicious` exactly when the combined score reaches the
configured confidence threshold. -/
def combineResults (cfg : MLConfig) (bScore aScore : ℚ) : EnsembleResult :=
  let beaconWeight : ℚ := 0.6
  let anomalyWeight : ℚ := 0.4
  let combinedScore := bScore * beaconWeight + aScore * anomalyWeight
  { prediction :=
      if cfg.confidenceThreshold ≤ combinedScore then Prediction.malicious
      else Prediction.benign
    score := combinedScore }

/-- The ensemble output of `MLDetector.predict` for one feature vector
(the `useEnsemble` path). -/
def predictEnsemble (cfg : MLConfig) (f : BFeatures) : EnsembleResult :=
  combineResults cfg (beaconScore f) (anomalyScore f)

end MLDetector

namespace ThreatIntelB

/-- A user-declared custom rule (`type` is the string `ip` or `cidr`). -/
structure CustomRule where
  type : String
  value : String
  malware : Option String := none
  confidence : Option ℚ := none
  threat_type : Option String := none
  id : ℕ := 0
deriving DecidableEq

/-- JavaScript `a || d` for an optional numeric field: a present non-zero
value wins, otherwise the default. -/
def jsNumDefault (a : Option ℚ) (d : ℚ) : ℚ :=
  match a with
  | some v => if v = 0 then d else v
  | none => d

/-- JavaScript `a || d` for an optional string field: a present non-empty
string wins, otherwise the default. -/
def jsStrDefault (a : Option String) (d : String) : String :=
  match a with
  | some v => if v = "" then d else v
  | none => d

/-- The reduce loop of `ip2long`: shift the accumulator left by one octet,
add the parsed octet, and convert to unsigned 32-bit at the end; modelled
with explicit 32-bit wrapping; an unparsable octet is modelled as 0 (it
collapses to 0 through the 32-bit conversions in the source too). -/
def ip2long (s : String) : ℕ :=
  (s.splitOn ".").foldl
    (fun acc oct => (acc * 2 ^ 8 % 2 ^ 32 + (oct.toNat?).getD 0) % 2 ^ 32) 0

/-- The function `ThreatIntel.matchCIDR`: mask `-1 << (32 - bits)` (JavaScript shift
counts are taken mod 32, and an unparsable prefix length behaves like 0,
giving an all-ones mask) and masked 32-bit equality of the two addresses;
any other malformation is non-matching (the catch clause of the source). -/
def matchCIDR (ip cidr : String) : Bool :=
  match cidr.splitOn "/" with
  | [range, bits] =>
    let bitsN : ℤ := ((bits.toNat?).getD 0 : ℤ)
    let kEff := ((32 - bitsN) % 32).toNat
    let mask := 2 ^ 32 - 2 ^ kEff
    decide (Nat.land (ip2long ip) mask = Nat.land (ip2long range) mask)
  | _ => false

/-- The record a custom-rule match produces (the constant source label and
the tag list are constants and elided; `cidr` is only set by the CIDR
branch). -/
structure MatchRecord where
  ip : String
  malware : String
  confidence : ℚ
  threat_type : String
  rule_id : ℕ
  cidr : Option String
deriving DecidableEq

/-- The match record of the exact-IP branch of `checkCustomRules`. -/
def buildIPMatch (ip : String) (r : CustomRule) : MatchRecord :=
  { ip := ip
    malware := jsStrDefault r.malware "Custom Detection"
    confidence := jsNumDefault r.confidence 70
    threat_type := jsStrDefault r.threat_type "custom"
    rule_id := r.id
    cidr := none }

/-- The match record of the CIDR branch of `checkCustomRules`. -/
def buildCIDRMatch (ip : String) (r : CustomRule) : MatchRecord :=
  { buildIPMatch ip r with cidr := some r.value }

/-- The function `ThreatIntel.checkCustomRules`: walk the rule list in order and return
the match built from the first rule whose type is `ip` with an equal
value, or whose type is `cidr` with a containing range; `none` when no
rule matches. -/
def checkCustomRules (ip : String) : List CustomRule → Option MatchRecord
  | [] => none
  | r :: rest =>
    if r.type = "ip" ∧ r.value = ip then some (buildIPMatch ip r)
    else if r.type = "cidr" ∧ matchCIDR ip r.value then some (buildCIDRMatch ip r)
    else checkCustomRules ip rest

/-- One rule matches one IP: exact `ip` rule or containing `cidr` rule. -/
def ruleMatches (ip : String) (r : CustomRule) : Prop :=
  (r.type = "ip" ∧ r.value = ip) ∨ (r.type = "cidr" ∧ matchCIDR ip r.value = true)

instance (ip : String) (r : CustomRule) : Decidable (ruleMatches ip r) := by
  unfold ruleMatches
  infer_instance

/-- The match record built from whichever branch of `checkCustomRules`
fires for a matching rule. -/
def buildMatch (ip : String) (r : CustomRule) : MatchRecord :=
  if r.type = "ip" ∧ r.value = ip then buildIPMatch ip r else buildCIDRMatch ip r

end ThreatIntelB

end C2Detector

namespace C2Detector

namespace Detector

lemma stepThreatIntel_eq (tiMatches : List TIMatch) (s : ℤ) :
    stepThreatIntel tiMatches s = s + tiDelta tiMatches := by
  simp only [stepThreatIntel, tiDelta]; split_ifs <;> ring

lemma stepPeriodicity_eq (f : Features) (s : ℤ) :
    stepPeriodicity f s = s + periodicityDelta f := by
  simp only [stepPeriodicity, periodicityDelta]; split_ifs <;> ring

lemma stepJitter_eq (f : Features) (s : ℤ) :
    stepJitter f s = s + jitterDelta f := by
  simp only [stepJitter, jitterDelta]; split_ifs <;> ring

lemma stepPayload_eq (f : Features) (s : ℤ) :
    stepPayload f s = s + payloadDelta f := by
  simp only [stepPayload, payloadDelta]; split_ifs <;> ring

lemma stepIntervalRange_eq (f : Features) (s : ℤ) :
    stepIntervalRange f s = s + intervalRangeDelta f := by
  simp only [stepIntervalRange, intervalRangeDelta]; split_ifs <;> ring

lemma stepCobalt_eq (f : Features) (s : ℤ) :
    stepCobalt f s = s + cobaltDelta f := by
  simp only [stepCobalt, cobaltDelta]; split_ifs <;> ring

lemma stepMetasploit_eq (f : Features) (s : ℤ) :
    stepMetasploit f s = s + metasploitDelta f := by
  simp only [stepMetasploit, metasploitDelta]; split_ifs <;> ring

lemma stepPersistence_eq (f : Features) (s : ℤ) :
    stepPersistence f s = s + persistenceDelta f := by
  simp only [stepPersistence, persistenceDelta]; split_ifs <;> ring

lemma stepSingleDest_eq (f : Features) (s : ℤ) :
    stepSingleDest f s = s + singleDestDelta f := by
  simp only [stepSingleDest, singleDestDelta]; split_ifs <;> ring

lemma stepPortPatterns_eq (f : Features) (s : ℤ) :
    stepPortPatterns f s = s + portPatternsDelta f := by
  simp only [stepPortPatterns, portPatternsDelta]; split_ifs <;> ring

lemma stepEntropy_eq (f : Features) (s : ℤ) :
    stepEntropy f s = s + entropyDelta f := by
  simp only [stepEntropy, entropyDelta]; split_ifs <;> ring

lemma stepNight_eq (f : Features) (s : ℤ) :
    stepNight f s = s + nightDelta f := by
  simp only [stepNight, nightDelta]; split_ifs <;> ring

lemma stepBenignIntervalVariance_eq (f : Features) (s : ℤ) :
    stepBenignIntervalVariance f s = s + benignIntervalVarianceDelta f := by
  simp only [stepBenignIntervalVariance, benignIntervalVarianceDelta]
  split_ifs <;> ring

lemma stepManyDest_eq (f : Features) (s : ℤ) :
    stepManyDest f s = s + manyDestDelta f := by
  simp only [stepManyDest, manyDestDelta]; split_ifs <;> ring

lemma stepTimeDiversity_eq (f : Features) (s : ℤ) :
    stepTimeDiversity f s = s + timeDiversityDelta f := by
  simp only [stepTimeDiversity, timeDiversityDelta]; split_ifs <;> ring

/-- The sequential accumulator equals the clamp of the plain sum of all
per-factor deltas. -/
lemma detect_eq_clamp (f : Features) (tiMatches : List TIMatch) :
    detect f tiMatches = clamp (totalDelta f tiMatches) := by
  simp only [detect, stepTimeDiversity_eq, stepManyDest_eq,
    stepBenignIntervalVariance_eq, stepNight_eq, stepEntropy_eq,
    stepPortPatterns_eq, stepSingleDest_eq, stepPersistence_eq,
    stepMetasploit_eq, stepCobalt_eq, stepIntervalRange_eq, stepPayload_eq,
    stepJitter_eq, stepPeriodicity_eq, stepThreatIntel_eq, totalDelta,
    featureDelta]
  congr 1
  ring

lemma clamp_nonneg (s : ℤ) : 0 ≤ clamp s := le_max_left 0 _

lemma clamp_le_100 (s : ℤ) : clamp s ≤ 100 :=
  max_le (by norm_num) (min_le_left 100 s)

/-- Claim C1: for every feature vector and every (possibly empty) list of
threat-intelligence matches, `detect` returns the sum of all triggered
per-factor point deltas clamped into [0,100], with the clamp applied once
after all factors are accumulated (so a negative partial sum can be
recovered by later positive factors), and the score is always in [0,100]. -/
theorem claim1_detect_is_clamped_factor_sum (f : Features) (ms : List TIMatch) :
    detect f ms = clamp (totalDelta f ms) ∧ 0 ≤ detect f ms ∧ detect f ms ≤ 100 :=
  ⟨detect_eq_clamp f ms,
   by rw [detect_eq_clamp]; exact clamp_nonneg _,
   by rw [detect_eq_clamp]; exact clamp_le_100 _⟩

/-- Claim C2: whenever at least one threat-intelligence match is present,
the detection engine adds a base +45 plus +25 when the highest match
confidence is at least 75 (total +70) and plus +15 otherwise (total +60). -/
theorem claim2_threat_intel_contribution (f : Features) (ms : List TIMatch)
    (h : ms ≠ []) :
    detect f ms
      = clamp (45 + (if 75 ≤ highestConfidence ms then 25 else 15) + featureDelta f) ∧
    tiDelta ms = (if 75 ≤ highestConfidence ms then 70 else 60) := by
  constructor
  · rw [detect_eq_clamp]
    simp only [totalDelta, tiDelta, if_pos h]
  · simp only [tiDelta, if_pos h]
    split_ifs <;> norm_num

/-- Witness for claim C2 at a concrete input. -/
theorem claim2_threat_intel_contribution_witness :
    ([exampleMatch] : List TIMatch) ≠ [] ∧
    (detect exampleFeatures [exampleMatch]
        = clamp (45 + (if 75 ≤ highestConfidence [exampleMatch] then 25 else 15)
            + featureDelta exampleFeatures) ∧
      tiDelta [exampleMatch]
        = (if 75 ≤ highestConfidence [exampleMatch] then 70 else 60)) :=
  ⟨by decide, claim2_threat_intel_contribution exampleFeatures [exampleMatch] (by decide)⟩

/-- Claim C3 counterexample: `exampleFeatures` has mean interval 1 s (below
3 s) and interval CV 0.8 (above 0.70).  With one confidence-80 match the
threat-intel block contributes +70, and the else-if of the source applies only
the −25 short-interval deduction, giving 70 − 25 = 45.  Under the claim both
deductions (−45 combined) would apply, giving 70 − 45 = 25. -/
theorem claim3_counterexample :
    detect exampleFeatures [exampleMatch] = 45 ∧
    detect exampleFeatures [exampleMatch] ≠ 25 := by
  have h : detect exampleFeatures [exampleMatch] = 45 := by
    norm_num [detect, clamp, stepTimeDiversity, stepManyDest,
      stepBenignIntervalVariance, stepNight, stepEntropy, stepPortPatterns,
      stepSingleDest, stepPersistence, stepMetasploit, stepCobalt,
      stepIntervalRange, stepPayload, stepJitter, stepPeriodicity,
      stepThreatIntel, highestConfidence, exampleFeatures, exampleMatch]
  exact ⟨h, by rw [h]; norm_num⟩

/-- Claim C3 (amended): the −25 short-interval and −20 high-variance
deductions are mutually exclusive branches of one `if`/`else if`: when the
mean interval is below 3 s only −25 applies even if CV exceeds 0.70, and
−20 applies exactly when the mean interval is at least 3 s and CV exceeds
0.70; the deduction enters the score through the final clamped sum. -/
theorem claim3_amended_benign_deductions_exclusive (f : Features)
    (ms : List TIMatch) (h1 : f.mean_interval < 3) (h2 : 0.70 < f.cv_interval) :
    benignIntervalVarianceDelta f = -25 ∧
    (∀ g : Features, 3 ≤ g.mean_interval → 0.70 < g.cv_interval →
      benignIntervalVarianceDelta g = -20) ∧
    detect f ms = clamp (totalDelta f ms) := by
  refine ⟨?_, ?_, detect_eq_clamp f ms⟩
  · simp only [benignIntervalVarianceDelta, if_pos h1]
  · intro g hg1 hg2
    simp only [benignIntervalVarianceDelta, if_neg (not_lt.mpr hg1), if_pos hg2]

/-- Witness for the amended claim C3 at a concrete input. -/
theorem claim3_amended_benign_deductions_exclusive_witness :
    exampleFeatures.mean_interval < 3 ∧ 0.70 < exampleFeatures.cv_interval ∧
    (benignIntervalVarianceDelta exampleFeatures = -25 ∧
      (∀ g : Features, 3 ≤ g.mean_interval → 0.70 < g.cv_interval →
        benignIntervalVarianceDelta g = -20) ∧
      detect exampleFeatures [exampleMatch]
        = clamp (totalDelta exampleFeatures [exampleMatch])) :=
  ⟨by norm_num [exampleFeatures], by norm_num [exampleFeatures],
   claim3_amended_benign_deductions_exclusive exampleFeatures [exampleMatch]
     (by norm_num [exampleFeatures]) (by norm_num [exampleFeatures])⟩

end Detector

namespace Analyzer

lemma diffs_nonneg (l : List ℚ) (hl : List.Sorted (· ≤ ·) l) :
    ∀ x ∈ diffs l, 0 ≤ x := by
  induction l with
  | nil => simp [diffs]
  | cons a t ih =>
    cases t with
    | nil => simp [diffs]
    | cons b rest =>
      intro x hx
      rw [show diffs (a :: b :: rest) = (b - a) :: diffs (b :: rest) from rfl] at hx
      rcases List.mem_cons.mp hx with h1 | h2
      · have hab : a ≤ b := (List.sorted_cons.mp hl).1 b (List.mem_cons_self b rest)
        subst h1
        linarith
      · exact ih (List.sorted_cons.mp hl).2 x h2

lemma intervalsOf_nonneg (rawTs : List ℚ) : ∀ x ∈ intervalsOf rawTs, 0 ≤ x :=
  diffs_nonneg _ (List.sorted_mergeSort' rawTs)

lemma calculateStats_mean_nonneg (values : List ℚ) (h : ∀ x ∈ values, 0 ≤ x) :
    0 ≤ (Utils.calculateStats values).mean := by
  unfold Utils.calculateStats
  split
  · norm_num
  · rename_i hne
    have hlen : 0 < (values.length : ℚ) := by
      exact_mod_cast List.length_pos.mpr hne
    exact div_nonneg (List.sum_nonneg h) (le_of_lt hlen)

end Analyzer

/-- Claim C4: the periodicity feature is the fraction of intervals whose
relative deviation from the median interval is strictly below 0.15, and is
0 whenever the median is 0 or there are no intervals. -/
theorem claim4_periodicity_is_median_fraction (intervals : List ℚ) (median : ℚ) :
    Analyzer.calculatePeriodicity intervals median
      = if intervals = [] ∨ median = 0 then 0
        else (intervals.countP (fun i => |i - median| / median < 0.15) : ℚ)
          / (intervals.length : ℚ) := by
  unfold Analyzer.calculatePeriodicity
  rw [List.countP_eq_length_filter]

lemma exampleConns_timestamps :
    Analyzer.mapTimestamps exampleConns = some exampleRawTs := by
  simp only [exampleConns, Analyzer.mapTimestamps, Utils.getTimestamp,
    Utils.resolvedTimestamp, Utils.firstTruthyQ, exampleRawTs]
  norm_num

/-- Claim C5: the jitter feature of the extracted feature vector is the
coefficient of variation stddev/mean of the interval series, and is 0 (not
1) when the mean interval is 0; the division only ever happens under the
positive-mean guard. -/
theorem claim5_jitter_zero_guarded (conns : List Conn) (rawTs : List ℚ)
    (h : Analyzer.mapTimestamps conns = some rawTs) :
    ((Utils.calculateStats (Analyzer.intervalsOf rawTs)).mean = 0 →
      (Analyzer.extractFeaturesWith conns rawTs).jitter = 0) ∧
    ((Utils.calculateStats (Analyzer.intervalsOf rawTs)).mean ≠ 0 →
      0 < (Utils.calculateStats (Analyzer.intervalsOf rawTs)).mean ∧
      (Analyzer.extractFeaturesWith conns rawTs).jitter
        = (Utils.calculateStats (Analyzer.intervalsOf rawTs)).std
          / ((Utils.calculateStats (Analyzer.intervalsOf rawTs)).mean : ℝ)) ∧
    Analyzer.extractFeatures conns = some (Analyzer.extractFeaturesWith conns rawTs) := by
  have hmean : 0 ≤ (Utils.calculateStats (Analyzer.intervalsOf rawTs)).mean :=
    Analyzer.calculateStats_mean_nonneg _ (Analyzer.intervalsOf_nonneg rawTs)
  refine ⟨?_, ?_, ?_⟩
  · intro h0
    simp only [Analyzer.extractFeaturesWith, Analyzer.intervalsOf] at h0 ⊢
    rw [if_neg (by rw [h0]; exact lt_irrefl 0)]
  · intro hne
    have hpos : 0 < (Utils.calculateStats (Analyzer.intervalsOf rawTs)).mean :=
      lt_of_le_of_ne hmean (Ne.symm hne)
    refine ⟨hpos, ?_⟩
    simp only [Analyzer.extractFeaturesWith, Analyzer.intervalsOf] at hpos ⊢
    rw [if_pos hpos]
  · unfold Analyzer.extractFeatures
    rw [h]
    rfl

/-- Witness for claim C5 at a concrete two-connection input. -/
theorem claim5_jitter_zero_guarded_witness :
    Analyzer.mapTimestamps exampleConns = some exampleRawTs ∧
    (((Utils.calculateStats (Analyzer.intervalsOf exampleRawTs)).mean = 0 →
        (Analyzer.extractFeaturesWith exampleConns exampleRawTs).jitter = 0) ∧
      ((Utils.calculateStats (Analyzer.intervalsOf exampleRawTs)).mean ≠ 0 →
        0 < (Utils.calculateStats (Analyzer.intervalsOf exampleRawTs)).mean ∧
        (Analyzer.extractFeaturesWith exampleConns exampleRawTs).jitter
          = (Utils.calculateStats (Analyzer.intervalsOf exampleRawTs)).std
            / ((Utils.calculateStats (Analyzer.intervalsOf exampleRawTs)).mean : ℝ)) ∧
      Analyzer.extractFeatures exampleConns
        = some (Analyzer.extractFeaturesWith exampleConns exampleRawTs)) :=
  ⟨exampleConns_timestamps,
   claim5_jitter_zero_guarded exampleConns exampleRawTs exampleConns_timestamps⟩

/-- Claim C7: a resolved timestamp value below 10,000,000,000 is scaled
from seconds to milliseconds (multiplied by 1000) and any other value is
used unchanged, and the feature vector (intervals, durations, everything)
is computed from the so-normalized timestamps. -/
theorem claim7_timestamp_seconds_scaling (c : Conn) (t : ℚ)
    (h : Utils.resolvedTimestamp c = some t) :
    Utils.getTimestamp c = some (if t < 10000000000 then t * 1000 else t) ∧
    ∀ conns rawTs, Analyzer.mapTimestamps conns = some rawTs →
      Analyzer.extractFeatures conns = some (Analyzer.extractFeaturesWith conns rawTs) := by
  constructor
  · unfold Utils.getTimestamp
    rw [h]
  · intro conns rawTs hc
    unfold Analyzer.extractFeatures
    rw [hc]
    rfl

namespace AnalyzerB

lemma portDiversity_nonneg (conns : List Conn) : 0 ≤ portDiversity conns := by
  simp only [portDiversity]
  split
  · exact div_nonneg (by positivity) (Real.sqrt_nonneg _)
  · norm_num

end AnalyzerB

lemma entropyOfValues_nonneg {α : Type} [DecidableEq α] (vals : List α) :
    0 ≤ Analyzer.entropyOfValues vals := by
  unfold Analyzer.entropyOfValues
  apply List.sum_nonneg
  intro x hx
  simp only [List.mem_map] at hx
  obtain ⟨v, hv, rfl⟩ := hx
  have hvmem : v ∈ vals := List.mem_dedup.mp hv
  have hlen : 0 < vals.length := List.length_pos.mpr (List.ne_nil_of_mem hvmem)
  have hp0 : (0 : ℚ) < Analyzer.probOf vals v := by
    unfold Analyzer.probOf
    exact div_pos (by exact_mod_cast List.count_pos_iff.mpr hvmem)
      (by exact_mod_cast hlen)
  have hp1 : Analyzer.probOf vals v ≤ 1 := by
    unfold Analyzer.probOf
    rw [div_le_one (by exact_mod_cast hlen)]
    exact_mod_cast List.count_le_length v vals
  have hlog : Real.logb 2 (Analyzer.probOf vals v) ≤ 0 :=
    Real.logb_nonpos (by norm_num) (by positivity) (by exact_mod_cast hp1)
  have hpR : (0 : ℝ) ≤ (Analyzer.probOf vals v : ℚ) := by exact_mod_cast le_of_lt hp0
  nlinarith [hpR, hlog]

lemma calculateEntropy_nonneg (intervals : List ℚ) :
    0 ≤ Analyzer.calculateEntropy intervals := by
  unfold Analyzer.calculateEntropy
  split
  · norm_num
  · exact entropyOfValues_nonneg _

lemma calculatePortEntropy_nonneg (conns : List Conn) :
    0 ≤ Analyzer.calculatePortEntropy conns := by
  simp only [Analyzer.calculatePortEntropy]
  split
  · norm_num
  · exact entropyOfValues_nonneg _

lemma calculatePeriodicity_mem_unit (intervals : List ℚ) (median : ℚ) :
    0 ≤ Analyzer.calculatePeriodicity intervals median ∧
    Analyzer.calculatePeriodicity intervals median ≤ 1 := by
  unfold Analyzer.calculatePeriodicity
  split
  · norm_num
  · rename_i hcond
    push_neg at hcond
    have hlen : (0 : ℚ) < intervals.length := by
      exact_mod_cast List.length_pos.mpr hcond.1
    refine ⟨by positivity, ?_⟩
    rw [div_le_one hlen]
    exact_mod_cast List.length_filter_le _ intervals

lemma calculateStats_std_nonneg (values : List ℚ) :
    0 ≤ (Utils.calculateStats values).std := by
  unfold Utils.calculateStats
  split
  · norm_num
  · exact Real.sqrt_nonneg _

lemma hourOfTimestamp_mem (t : ℚ) :
    0 ≤ Analyzer.hourOfTimestamp t ∧ Analyzer.hourOfTimestamp t < 24 :=
  ⟨Int.emod_nonneg _ (by norm_num), Int.emod_lt_of_pos _ (by norm_num)⟩

lemma analyzeTimePatterns_bounds (timestamps : List ℚ) :
    (0 ≤ (Analyzer.analyzeTimePatterns timestamps).diversity ∧
      (Analyzer.analyzeTimePatterns timestamps).diversity ≤ 1) ∧
    (0 ≤ (Analyzer.analyzeTimePatterns timestamps).nightRatio ∧
      (Analyzer.analyzeTimePatterns timestamps).nightRatio ≤ 1) := by
  have hhours : ∀ x ∈ (timestamps.map Analyzer.hourOfTimestamp).toFinset,
      x ∈ Finset.Ico (0 : ℤ) 24 := by
    intro x hx
    rw [List.mem_toFinset] at hx
    obtain ⟨t, _, rfl⟩ := List.mem_map.mp hx
    rw [Finset.mem_Ico]
    exact hourOfTimestamp_mem t
  have hcard : (timestamps.map Analyzer.hourOfTimestamp).dedup.length ≤ 24 := by
    have h1 := Finset.card_le_card hhours
    rw [Int.card_Ico, show ((24 : ℤ) - 0).toNat = 24 from rfl] at h1
    rwa [List.card_toFinset] at h1
  constructor
  · unfold Analyzer.analyzeTimePatterns
    constructor
    · positivity
    · rw [div_le_one (by norm_num)]
      exact_mod_cast hcard
  · unfold Analyzer.analyzeTimePatterns
    constructor
    · positivity
    · rcases eq_or_ne timestamps [] with h | h
      · subst h
        norm_num
      · have hlen : (0 : ℚ) < timestamps.length := by
          exact_mod_cast List.length_pos.mpr h
        rw [div_le_one hlen]
        have h1 := List.length_filter_le (fun h => decide (22 ≤ h ∨ h < 6))
          (timestamps.map Analyzer.hourOfTimestamp)
        rw [List.length_map] at h1
        exact_mod_cast h1

/-- Claim C6 counterexample: a two-connection analysis with destination
ports 80 and 443 gives port diversity 2/√2 = √2, strictly above 1, so the
port-diversity feature of the variant-B analyzer is not confined to [0,1]. -/
theorem claim6_counterexample : 1 < AnalyzerB.portDiversity exampleConns := by
  have hports : exampleConns.filterMap (fun c => AnalyzerB.jsOrOpt c.dest_port c.dport)
      = [80, 443] := by
    norm_num [exampleConns, AnalyzerB.jsOrOpt, List.filterMap]
  have hval : AnalyzerB.portDiversity exampleConns = 2 / Real.sqrt 2 := by
    unfold AnalyzerB.portDiversity
    rw [hports]
    norm_num [List.dedup]
  rw [hval, Real.div_sqrt]
  have h2 : Real.sqrt 1 < Real.sqrt 2 := Real.sqrt_lt_sqrt (by norm_num) (by norm_num)
  rwa [Real.sqrt_one] at h2

/-- Claim C6 (amended): for every connection list accepted for analysis
(at least 2 records), periodicity, payload consistency, time diversity and
night ratio lie in [0,1] and both entropy features are non-negative; the
variant-B port-diversity feature is non-negative but, being
`unique / sqrt(total)`, is not bounded by 1. -/
theorem claim6_amended_feature_ranges (conns : List Conn) (rawTs : List ℚ)
    (hres : Analyzer.mapTimestamps conns = some rawTs) (hlen : 2 ≤ conns.length) :
    (0 ≤ (Analyzer.extractFeaturesWith conns rawTs).periodicity ∧
      (Analyzer.extractFeaturesWith conns rawTs).periodicity ≤ 1) ∧
    (0 ≤ (Analyzer.extractFeaturesWith conns rawTs).bytes_consistency ∧
      (Analyzer.extractFeaturesWith conns rawTs).bytes_consistency ≤ 1) ∧
    (0 ≤ (Analyzer.extractFeaturesWith conns rawTs).time_diversity ∧
      (Analyzer.extractFeaturesWith conns rawTs).time_diversity ≤ 1) ∧
    (0 ≤ (Analyzer.extractFeaturesWith conns rawTs).night_ratio ∧
      (Analyzer.extractFeaturesWith conns rawTs).night_ratio ≤ 1) ∧
    0 ≤ (Analyzer.extractFeaturesWith conns rawTs).entropy ∧
    0 ≤ (Analyzer.extractFeaturesWith conns rawTs).port_entropy ∧
    0 ≤ AnalyzerB.portDiversity conns ∧
    Analyzer.extractFeatures conns = some (Analyzer.extractFeaturesWith conns rawTs) := by
  refine ⟨?_, ?_, ?_, ?_, ?_, ?_, AnalyzerB.portDiversity_nonneg conns, ?_⟩
  · exact calculatePeriodicity_mem_unit _ _
  · show 0 ≤ 1 - min (ite _ ((Utils.calculateStats _).std / _) 1) 1 ∧
      1 - min (ite _ ((Utils.calculateStats _).std / _) 1) 1 ≤ 1
    have hcv : (0 : ℝ) ≤ ite ((conns.map Utils.getBytes).filter (fun b => 0 < b) ≠ [] ∧
        0 < (Utils.calculateStats ((conns.map Utils.getBytes).filter (fun b => 0 < b))).mean)
        ((Utils.calculateStats ((conns.map Utils.getBytes).filter (fun b => 0 < b))).std /
          ((Utils.calculateStats ((conns.map Utils.getBytes).filter (fun b => 0 < b))).mean : ℝ))
        1 := by
      split
      · rename_i hg
        exact div_nonneg (calculateStats_std_nonneg _) (by exact_mod_cast le_of_lt hg.2)
      · norm_num
    constructor
    · have := min_le_right (ite ((conns.map Utils.getBytes).filter (fun b => 0 < b) ≠ [] ∧
        0 < (Utils.calculateStats ((conns.map Utils.getBytes).filter (fun b => 0 < b))).mean)
        ((Utils.calculateStats ((conns.map Utils.getBytes).filter (fun b => 0 < b))).std /
          ((Utils.calculateStats ((conns.map Utils.getBytes).filter (fun b => 0 < b))).mean : ℝ))
        1) (1 : ℝ)
      linarith
    · have := le_min hcv (zero_le_one (α := ℝ))
      linarith
  · exact (analyzeTimePatterns_bounds _).1
  · exact (analyzeTimePatterns_bounds _).2
  · exact calculateEntropy_nonneg _
  · exact calculatePortEntropy_nonneg conns
  · unfold Analyzer.extractFeatures
    rw [hres]
    rfl

/-- Witness for the amended claim C6 at a concrete two-connection input. -/
theorem claim6_amended_feature_ranges_witness :
    Analyzer.mapTimestamps exampleConns = some exampleRawTs ∧
    2 ≤ exampleConns.length ∧
    (0 ≤ (Analyzer.extractFeaturesWith exampleConns exampleRawTs).periodicity ∧
      (Analyzer.extractFeaturesWith exampleConns exampleRawTs).periodicity ≤ 1) :=
  ⟨exampleConns_timestamps, by norm_num [exampleConns],
   (claim6_amended_feature_ranges exampleConns exampleRawTs exampleConns_timestamps
     (by norm_num [exampleConns])).1⟩

/-- Witness for claim C7 at a concrete connection. -/
theorem claim7_timestamp_seconds_scaling_witness :
    Utils.resolvedTimestamp { timestamp := some 1000 } = some 1000 ∧
    (Utils.getTimestamp { timestamp := some 1000 }
        = some (if (1000 : ℚ) < 10000000000 then 1000 * 1000 else 1000) ∧
      ∀ conns rawTs, Analyzer.mapTimestamps conns = some rawTs →
        Analyzer.extractFeatures conns = some (Analyzer.extractFeaturesWith conns rawTs)) :=
  ⟨by simp [Utils.resolvedTimestamp, Utils.firstTruthyQ],
   claim7_timestamp_seconds_scaling { timestamp := some 1000 } 1000
     (by simp [Utils.resolvedTimestamp, Utils.firstTruthyQ])⟩

/-- Claim C9: the ensemble score is the weighted average of the beacon
classifier (weight 0.6) and the anomaly detector (weight 0.4) — the
weights sum to 1 so the weighted sum is the weighted average — and the
prediction is `malicious` exactly when the combined score is greater than
or equal to the confidence threshold, whose default is 0.65. -/
theorem claim9_ensemble_weighted_average (cfg : MLDetector.MLConfig)
    (f : MLDetector.BFeatures) :
    (MLDetector.predictEnsemble cfg f).score
      = MLDetector.beaconScore f * 0.6 + MLDetector.anomalyScore f * 0.4 ∧
    (MLDetector.predictEnsemble cfg f).score
      = (MLDetector.beaconScore f * 0.6 + MLDetector.anomalyScore f * 0.4)
        / (0.6 + 0.4) ∧
    ((MLDetector.predictEnsemble cfg f).prediction = MLDetector.Prediction.malicious ↔
      cfg.confidenceThreshold ≤ (MLDetector.predictEnsemble cfg f).score) ∧
    MLDetector.defaultConfig.confidenceThreshold = 0.65 := by
  refine ⟨rfl, by norm_num [MLDetector.predictEnsemble, MLDetector.combineResults], ?_, rfl⟩
  simp only [MLDetector.predictEnsemble, MLDetector.combineResults]
  split
  · rename_i h
    simp only [eq_self_iff_true, true_iff]
    exact h
  · rename_i h
    constructor
    · intro hcontra
      cases hcontra
    · intro hle
      exact absurd hle h

lemma octEq_true (parts : IPParts) (i n : ℕ) (h : parts.getD i none = some n) :
    Utils.octEq parts i n = true := by
  simp only [Utils.octEq, decide_eq_true_eq]
  exact h

lemma octBetween_true (parts : IPParts) (i lo hi v : ℕ)
    (hv : parts.getD i none = some v) (h1 : lo ≤ v) (h2 : v ≤ hi) :
    Utils.octBetween parts i lo hi = true := by
  simp only [Utils.octBetween, hv, decide_eq_true_eq]
  exact ⟨h1, h2⟩

lemma isPrivateIP_B_eq (parts : IPParts) :
    UtilsB.isPrivateIP parts
      = (Utils.isPrivateIP parts ||
          (Utils.octEq parts 0 169 && Utils.octEq parts 1 254)) := by
  simp [UtilsB.isPrivateIP, Utils.isPrivateIP, Bool.or_assoc]

lemma rfc1918OrLoopback_isPrivate (parts : IPParts)
    (h : rfc1918OrLoopback parts) : Utils.isPrivateIP parts = true := by
  obtain ⟨hlen, hcase⟩ := h
  rcases hcase with h10 | ⟨h172, v, hv, h16, h31⟩ | ⟨h192, h168⟩ | h127
  · simp [Utils.isPrivateIP, octEq_true _ _ _ h10]
  · simp [Utils.isPrivateIP, octEq_true _ _ _ h172,
      octBetween_true _ _ _ _ _ hv h16 h31]
  · simp [Utils.isPrivateIP, octEq_true _ _ _ h192, octEq_true _ _ _ h168]
  · simp [Utils.isPrivateIP, octEq_true _ _ _ h127]

/-- Claim C8 counterexample: the link-local destination 169.254.1.1 is
among the claimed private/reserved ranges and is recognized by the
variant-B `isPrivateIP`, but the `isPrivateIP` used by the resolver on
the `checkConnections` path does not treat it as private: a dataset whose
only destination is 169.254.1.1 yields one IP in the lookup list (an
external lookup is performed) and can return a match. -/
theorem claim8_counterexample :
    Utils.isPrivateIP linkLocalIP = false ∧
    UtilsB.isPrivateIP linkLocalIP = true ∧
    ThreatIntel.externalLookupIPs linkLocalConns = [linkLocalIP] ∧
    ThreatIntel.checkConnections (fun _ => some ()) (fun _ : IPParts => (none : Option Unit))
      linkLocalConns = [(linkLocalIP, some (), (none : Option Unit))] := by
  refine ⟨by decide, by decide, by decide, by decide⟩

/-- Claim C8 (amended): destination IPs in 10/8, 172.16/12, 192.168/16 and
127/8 are never looked up — a dataset whose destinations all lie in those
ranges produces an empty lookup list and zero matches — and the variant-B
`isPrivateIP` additionally treats all five claimed ranges (including
link-local 169.254/16) as private; the resolver-path `isPrivateIP`,
however, omits the link-local check (see the counterexample). -/
theorem claim8_amended_private_ip_exclusion (α β : Type)
    (feed : IPParts → Option α) (custom : IPParts → Option β)
    (conns : List (Option IPParts))
    (hpriv : ∀ ip ∈ conns.filterMap id, rfc1918OrLoopback ip) :
    ThreatIntel.externalLookupIPs conns = [] ∧
    ThreatIntel.checkConnections feed custom conns = [] ∧
    (∀ parts : IPParts, claimedPrivateRange parts → UtilsB.isPrivateIP parts = true) := by
  have hfilter : (ThreatIntel.destIPsOf conns).filter
      (fun ip => !Utils.isPrivateIP ip) = [] := by
    rw [List.filter_eq_nil_iff]
    intro ip hip
    simp [rfc1918OrLoopback_isPrivate ip (hpriv ip (List.mem_dedup.mp hip))]
  have hempty : ThreatIntel.externalLookupIPs conns = [] := by
    unfold ThreatIntel.externalLookupIPs
    rw [hfilter]
    rfl
  refine ⟨hempty, ?_, ?_⟩
  · unfold ThreatIntel.checkConnections
    rw [hempty]
    rfl
  · intro parts hp
    rw [isPrivateIP_B_eq]
    rcases hp with hfour | ⟨hlen, h169, h254⟩
    · simp [rfc1918OrLoopback_isPrivate parts hfour]
    · simp [octEq_true _ _ _ h169, octEq_true _ _ _ h254]

/-- Witness for the amended claim C8 at a concrete all-private dataset. -/
theorem claim8_amended_private_ip_exclusion_witness :
    (∀ ip ∈ ([some [some 10, some 0, some 0, some 1]] :
        List (Option IPParts)).filterMap id, rfc1918OrLoopback ip) ∧
    (ThreatIntel.externalLookupIPs [some [some 10, some 0, some 0, some 1]] = [] ∧
      ThreatIntel.checkConnections (fun _ => some ()) (fun _ : IPParts => (none : Option Unit))
        [some [some 10, some 0, some 0, some 1]] = [] ∧
      (∀ parts : IPParts, claimedPrivateRange parts → UtilsB.isPrivateIP parts = true)) := by
  have hp : ∀ ip ∈ ([some [some 10, some 0, some 0, some 1]] :
      List (Option IPParts)).filterMap id, rfc1918OrLoopback ip := by
    intro ip hip
    have heq : ip = [some 10, some 0, some 0, some 1] := by
      simpa using hip
    subst heq
    exact ⟨rfl, Or.inl rfl⟩
  exact ⟨hp, claim8_amended_private_ip_exclusion Unit Unit _ _ _ hp⟩

/-- Claim C10: `checkCustomRules` returns the match built from the first
rule in list order whose type is `ip` with value equal to the IP or whose
type is `cidr` with a range containing the IP; later matching rules are
ignored (at most one match is produced), and the result is `none` exactly
when no rule matches. -/
theorem claim10_first_matching_rule_wins (ip : String)
    (rules : List ThreatIntelB.CustomRule) :
    ThreatIntelB.checkCustomRules ip rules
      = (rules.find? (fun r => decide (ThreatIntelB.ruleMatches ip r))).map
          (ThreatIntelB.buildMatch ip) ∧
    (ThreatIntelB.checkCustomRules ip rules = none ↔
      ∀ r ∈ rules, ¬ ThreatIntelB.ruleMatches ip r) := by
  induction rules with
  | nil => simp [ThreatIntelB.checkCustomRules]
  | cons r rest ih =>
    by_cases h1 : r.type = "ip" ∧ r.value = ip
    · have hm : ThreatIntelB.ruleMatches ip r := Or.inl h1
      have hsome : ThreatIntelB.checkCustomRules ip (r :: rest)
          = some (ThreatIntelB.buildIPMatch ip r) := by
        simp [ThreatIntelB.checkCustomRules, h1]
      constructor
      · rw [List.find?_cons_of_pos _ (by simpa using hm), hsome]
        simp [ThreatIntelB.buildMatch, h1]
      · rw [hsome]
        constructor
        · intro hnone
          exact (Option.some_ne_none _ hnone).elim
        · intro hall
          exact absurd hm (hall r (List.mem_cons_self r rest))
    · by_cases h2 : r.type = "cidr" ∧ ThreatIntelB.matchCIDR ip r.value
      · have hm : ThreatIntelB.ruleMatches ip r := Or.inr ⟨h2.1, h2.2⟩
        have hsome : ThreatIntelB.checkCustomRules ip (r :: rest)
            = some (ThreatIntelB.buildCIDRMatch ip r) := by
          simp [ThreatIntelB.checkCustomRules, h1, h2]
        constructor
        · rw [List.find?_cons_of_pos _ (by simpa using hm), hsome]
          simp [ThreatIntelB.buildMatch, h1]
        · rw [hsome]
          constructor
          · intro hnone
            exact (Option.some_ne_none _ hnone).elim
          · intro hall
            exact absurd hm (hall r (List.mem_cons_self r rest))
      · have hm : ¬ ThreatIntelB.ruleMatches ip r := by
          intro hcontra
          rcases hcontra with ha | hb
          · exact h1 ha
          · exact h2 ⟨hb.1, hb.2⟩
        have hstep : ThreatIntelB.checkCustomRules ip (r :: rest)
            = ThreatIntelB.checkCustomRules ip rest := by
          simp [ThreatIntelB.checkCustomRules, h1, h2]
        constructor
        · rw [hstep, List.find?_cons_of_neg _ (by simpa using hm)]
          exact ih.1
        · rw [hstep]
          constructor
          · intro hnone x hx
            rcases List.mem_cons.mp hx with rfl | hx2
            · exact hm
            · exact (ih.2.mp hnone) x hx2
          · intro hall
            exact ih.2.mpr (fun x hx => hall x (List.mem_cons_of_mem r hx))

end C2Detector
